import Mathlib

/-!
Shallow embedding of the OAuth token lifecycle and the resilient HTTP client
of the oura_sync repository (src/models/auth.py, src/services/oauth.py,
src/services/oura_client.py, src/utils/database.py), with theorems settling
the behavioural claims about them.

Modelling conventions:
 * A Python `datetime` is an absolute clock reading in integer seconds.  A
   naive datetime carries only its clock value; an aware datetime carries a
   clock value together with its fixed UTC offset (the instant it denotes is
   `clock - offset` in UTC seconds).
 * The world clock is a pair `(utcNow, localOffset)`: `datetime.now(None)`
   returns the naive local clock `utcNow + localOffset`, while
   `datetime.now(tz)` for an offset timezone `tz = o` returns the aware
   datetime with clock `utcNow + o` and offset `o`.
 * The token table of src/utils/database.py holds at most one row per
   account; the client is single-account, so the store is an
   `Option TokenRecord`.  `get_db` commits on normal exit and rolls back on
   an exception, so a DB operation that raises is modelled as returning an
   error with the store unchanged.
 * Network I/O is scripted: the server is a function from the index of the
   GET request to the `HttpResponse` it returns, and the refresh endpoint is
   a function from the refresh token sent to the outcome.
-/

/-- A Python datetime: either naive (clock seconds only) or aware
(clock seconds plus fixed UTC offset in seconds). -/
inductive PyDatetime where
  | naive (clock : Int)
  | aware (clock : Int) (offset : Int)
deriving DecidableEq, Repr

/-- One row of the `oauth_tokens` table (src/models/auth.py, class
`OAuthToken`), for the single account the client manages. -/
structure TokenRecord where
  access_token : String
  refresh_token : String
  token_type : String
  expires_at : Option PyDatetime
  scopes : String
deriving DecidableEq, Repr

/-- A token-response dictionary from the provider (the `token_data` dict of
src/services/oauth.py).  Each field is `none` when the key is absent. -/
structure TokenData where
  access_token : Option String
  refresh_token : Option String
  token_type : Option String
  expires_in : Option Int
  scope : Option String
deriving DecidableEq, Repr

/-- `OAuthToken.is_expired` (src/models/auth.py lines 32-36):
`datetime.now(self.expires_at.tzinfo) >= self.expires_at`.
For a naive stored timestamp, `tzinfo` is `None`, so `datetime.now(None)` is
the naive LOCAL clock `utcNow + localOffset` and the comparison is between
naive clocks.  For an aware stored timestamp with offset `o`,
`datetime.now(tz)` has clock `utcNow + o` and the same offset, and aware
comparison compares the underlying instants. -/
def is_expired (localOffset utcNow : Int) : Option PyDatetime → Bool
  | none => false
  | some (.naive c) => utcNow + localOffset ≥ c
  | some (.aware c o) => (utcNow + o) - o ≥ c - o

/-- The expiry check as the spec words it (spec section 4.1): normalize both
timestamps to UTC, treating a naive stored timestamp as UTC, and compare the
instants.  Written from the spec only, to be compared with `is_expired`. -/
def is_expired_specUTC (utcNow : Int) : Option PyDatetime → Bool
  | none => false
  | some (.naive c) => utcNow ≥ c
  | some (.aware c o) => utcNow ≥ c - o

/-- Errors a DB write can raise inside `get_db` (rolled back, store
unchanged). -/
inductive SaveError where
  | keyError
deriving DecidableEq, Repr

/-- `OuraOAuth.save_token` (src/services/oauth.py lines 184-224).
`expires_at = datetime.now(timezone.utc) + timedelta(seconds=expires_in)`
with `expires_in = token_data.get("expires_in", 86400)`; if a row exists its
fields are updated, taking `token_data.get("refresh_token",
existing_token.refresh_token)` for the refresh token; otherwise a new row is
built from `token_data["access_token"]` and `token_data["refresh_token"]`,
raising `KeyError` when a required key is absent (the `get_db` context
manager then rolls the session back, so the store is unchanged). -/
def save_token (utcNow : Int) (td : TokenData) (db : Option TokenRecord) :
    Except SaveError (Option TokenRecord) :=
  let expiresAt : PyDatetime := .aware (utcNow + td.expires_in.getD 86400) 0
  match db with
  | some r =>
    match td.access_token with
    | none => .error .keyError
    | some a =>
      .ok (some { access_token := a
                  refresh_token := td.refresh_token.getD r.refresh_token
                  token_type := td.token_type.getD "Bearer"
                  expires_at := some expiresAt
                  scopes := td.scope.getD "" })
  | none =>
    match td.access_token, td.refresh_token with
    | some a, some rt =>
      .ok (some { access_token := a
                  refresh_token := rt
                  token_type := td.token_type.getD "Bearer"
                  expires_at := some expiresAt
                  scopes := td.scope.getD "" })
    | _, _ => .error .keyError

/-- Result of `OuraOAuth.get_token`: the returned row, the store afterwards,
and how many `refresh_access_token` and `save_token` calls were made. -/
structure GetTokenResult where
  token : Option TokenRecord
  db : Option TokenRecord
  refreshCalls : Nat
  saveCalls : Nat
deriving DecidableEq, Repr

/-- `OuraOAuth.get_token` (src/services/oauth.py lines 226-256).  Reads the
row; if present and expired it calls `refresh_access_token` (modelled by the
scripted endpoint `rf`) and then `save_token`, re-querying the updated row;
any exception in that block is caught and `None` is returned with the store
unchanged (the failed write was rolled back by its own `get_db` session). -/
def get_token (localOffset utcNow : Int) (rf : String → Except Unit TokenData)
    (db : Option TokenRecord) : GetTokenResult :=
  match db with
  | none => ⟨none, none, 0, 0⟩
  | some t =>
    if is_expired localOffset utcNow t.expires_at then
      match rf t.refresh_token with
      | .error _ => ⟨none, some t, 1, 0⟩
      | .ok td =>
        match save_token utcNow td (some t) with
        | .error _ => ⟨none, some t, 1, 1⟩
        | .ok db2 => ⟨db2, db2, 1, 1⟩
    else ⟨some t, some t, 0, 0⟩

/-- Digit run of a Python integer literal: digits with single underscores
allowed only between digits.  `acc` is the value read so far. -/
def pyDigitsVal : List Char → Nat → Option Nat
  | [], acc => some acc
  | c :: cs, acc =>
    if c.isDigit then pyDigitsVal cs (acc * 10 + (c.toNat - 48))
    else if c = '_' then
      match cs with
      | [] => none
      | c2 :: _ => if c2.isDigit then pyDigitsVal cs acc else none
    else none

/-- Python `int(s)` on a string: strip surrounding whitespace, allow one
optional sign, then a non-empty digit run (underscores only between
digits); anything else raises `ValueError`, modelled as `none`. -/
def pythonIntOfString (s : String) : Option Int :=
  let cs := ((s.toList.dropWhile Char.isWhitespace).reverse.dropWhile Char.isWhitespace).reverse
  match cs with
  | [] => none
  | c :: rest =>
    let signed : Int × List Char :=
      if c = '-' then (-1, rest) else if c = '+' then (1, rest) else (1, c :: rest)
    match signed.2 with
    | [] => none
    | d :: ds =>
      if d.isDigit then (pyDigitsVal (d :: ds) 0).map (fun n => signed.1 * n) else none

/-- One scripted HTTP response: status code, optional `Retry-After` header,
and the JSON body (abstract type `β`, what `response.json()` returns). -/
structure HttpResponse (β : Type) where
  status : Nat
  retryAfter : Option String
  body : β
deriving DecidableEq, Repr

/-- The exceptions `OuraClient._make_request` can let escape. -/
inductive PyError where
  /-- `Exception("No valid access token for user ...")` from `_get_headers`. -/
  | noTokenError
  /-- `ValueError` from `int(...)` on a malformed `Retry-After` header,
  which `except requests.exceptions.HTTPError` does not catch. -/
  | valueError
  /-- `Exception("Failed to refresh token: ...")` raised inside the 401
  handler by `refresh_access_token`. -/
  | refreshError
  /-- `KeyError` raised inside the 401 handler by `save_token`. -/
  | keyError
  /-- A re-raised `requests.exceptions.HTTPError` with this status. -/
  | httpError (status : Nat)
  /-- The final `Exception("Failed to complete request after ...")` after
  the `for` loop ends without returning. -/
  | exhaustedError
deriving DecidableEq, Repr

/-- Observable trace of one `_make_request` call: the token store, the
sleeps performed in order, the `Authorization` header value sent on each GET
in order, and the counts of `refresh_access_token` and `save_token` calls. -/
structure ClientTrace where
  db : Option TokenRecord
  waits : List Int
  bearers : List String
  refreshCalls : Nat
  saveCalls : Nat
deriving DecidableEq, Repr

/-- `int(response.headers.get("Retry-After", 60))` (oura_client.py line 59):
an absent header yields `int(60) = 60`; a present header is parsed as a
Python integer string, `none` meaning the uncaught `ValueError`. -/
def retryAfterValue : Option String → Option Int
  | none => some 60
  | some s => pythonIntOfString s

/-- The `for attempt in range(max_retries)` loop of
`OuraClient._make_request` (oura_client.py lines 53-86).  `remaining` is the
number of loop iterations left (`max_retries - attempt`); `attempt` is both
the loop index and the index of the GET issued this iteration (one GET per
iteration).  On 429: sleep `Retry-After` and `continue` (which advances the
`for` loop to the next `attempt`).  On a 4xx/5xx status, `raise_for_status`
raises `HTTPError`; the handler refreshes and retries on 401 (re-raising
when `get_token` yields no row), re-raises on the last attempt, and
otherwise sleeps `2 ^ attempt` and retries.  Any other status returns the
body.  Falling off the loop raises the final `Exception`. -/
def request_loop (localOffset utcNow : Int) (rf : String → Except Unit TokenData)
    (server : Nat → HttpResponse β) (bearer : String) (max_retries : Nat) :
    Nat → Nat → ClientTrace → Except PyError β × ClientTrace
  | 0, _, st => (.error .exhaustedError, st)
  | remaining + 1, attempt, st =>
    let resp := server attempt
    let st1 := { st with bearers := st.bearers ++ [bearer] }
    if resp.status = 429 then
      match retryAfterValue resp.retryAfter with
      | none => (.error .valueError, st1)
      | some w =>
        request_loop localOffset utcNow rf server bearer max_retries remaining (attempt + 1)
          { st1 with waits := st1.waits ++ [w] }
    else if 400 ≤ resp.status ∧ resp.status ≤ 599 then
      if resp.status = 401 then
        let g := get_token localOffset utcNow rf st1.db
        let st2 := { st1 with
          db := g.db
          refreshCalls := st1.refreshCalls + g.refreshCalls
          saveCalls := st1.saveCalls + g.saveCalls }
        match g.token with
        | none => (.error (.httpError 401), st2)
        | some t =>
          match rf t.refresh_token with
          | .error _ => (.error .refreshError, { st2 with refreshCalls := st2.refreshCalls + 1 })
          | .ok td =>
            match save_token utcNow td st2.db with
            | .error _ => (.error .keyError,
                { st2 with
                  refreshCalls := st2.refreshCalls + 1
                  saveCalls := st2.saveCalls + 1 })
            | .ok db2 =>
              request_loop localOffset utcNow rf server bearer max_retries remaining (attempt + 1)
                { st2 with
                  db := db2
                  refreshCalls := st2.refreshCalls + 1
                  saveCalls := st2.saveCalls + 1 }
      else if attempt = max_retries - 1 then
        (.error (.httpError resp.status), st1)
      else
        request_loop localOffset utcNow rf server bearer max_retries remaining (attempt + 1)
          { st1 with waits := st1.waits ++ [(2 : Int) ^ attempt] }
    else
      (.ok resp.body, st1)

/-- `OuraClient._make_request` (oura_client.py lines 33-86): compute the
headers once via `_get_headers` (which raises when `get_token` yields no row
or an empty access token), then run the retry loop with that fixed bearer
header. -/
def make_request (localOffset utcNow : Int) (rf : String → Except Unit TokenData)
    (server : Nat → HttpResponse β) (db : Option TokenRecord) (max_retries : Nat) :
    Except PyError β × ClientTrace :=
  let g := get_token localOffset utcNow rf db
  let st : ClientTrace := ⟨g.db, [], [], g.refreshCalls, g.saveCalls⟩
  match g.token with
  | none => (.error .noTokenError, st)
  | some t =>
    if t.access_token = "" then (.error .noTokenError, st)
    else
      request_loop localOffset utcNow rf server ("Bearer " ++ t.access_token) max_retries
        max_retries 0 st

/-- The JSON body shape `_fetch_paginated_data` reads: an optional `data`
array (default `[]` via `response.get("data", [])`) and an optional opaque
`next_token` string. -/
structure PageBody (α : Type) where
  data : Option (List α)
  next_token : Option String
deriving DecidableEq, Repr

/-- `if not next_token: break` (oura_client.py line 122): the loop stops
when `next_token` is absent or the empty string (both falsy). -/
def pageDone (p : PageBody α) : Bool :=
  match p.next_token with
  | none => true
  | some t => decide (t = "")

/-- The `while True` loop of `OuraClient._fetch_paginated_data`
(oura_client.py lines 115-126), with each iteration's `_make_request`
scripted to return `pages i` for the `i`-th request.  Returns the
accumulated items and the number of requests issued, or `none` when `fuel`
iterations did not reach a final page (the loop would still be running). -/
def fetch_loop (pages : Nat → PageBody α) : Nat → Nat → Option (List α × Nat)
  | 0, _ => none
  | fuel + 1, i =>
    let p := pages i
    let d := (p.data).getD []
    if pageDone p then some (d, 1)
    else
      match fetch_loop pages fuel (i + 1) with
      | none => none
      | some (rest, n) => some (d ++ rest, n + 1)

/-- `OuraClient._fetch_paginated_data` (oura_client.py lines 88-129),
starting at the first page. -/
def fetch_paginated_data (pages : Nat → PageBody α) (fuel : Nat) : Option (List α × Nat) :=
  fetch_loop pages fuel 0

/-- Outcome of `exchange_code_for_token`: the provider's token dict, or the
wrapped generic `Exception("Failed to exchange code for token: ...")`. -/
inductive ExchangeOutcome where
  | token (td : TokenData)
  | exchangeFailed
deriving DecidableEq, Repr

/-- Result of a code exchange: whether the token endpoint was contacted, and
the outcome. -/
structure ExchangeResult where
  tokenEndpointCalled : Bool
  outcome : ExchangeOutcome
deriving DecidableEq, Repr

/-- `OuraOAuth.exchange_code_for_token` (oauth.py lines 115-147).  The
method creates an `OAuth2Session` whose session state is its own `state`
argument, then builds `authorization_response =
f"\x7bself.redirect_uri\x7d?code=\x7bauth_code\x7d"` and, when `state` is
present, appends `&state=\x7bstate\x7d` — the SAME `state` argument.
`oauth.fetch_token` compares the state found in `authorization_response`
against the session state and raises `MismatchingStateError` (caught and
wrapped, endpoint not called) on mismatch; since both are the caller's
`state` value, the check always passes and the token endpoint is called. -/
def exchange_code_for_token (tokenEndpoint : String → TokenData)
    (auth_code : String) (state : Option String) : ExchangeResult :=
  let responseState : Option String := state
  let sessionState : Option String := state
  let stateOk : Bool :=
    match sessionState with
    | none => true
    | some s => decide (responseState = some s)
  if stateOk then ⟨true, .token (tokenEndpoint auth_code)⟩
  else ⟨false, .exchangeFailed⟩

/-- The authorization flow as driven by src/scripts/authenticate.py lines
33-43: `start_auth_flow` returns the generated state; the user types only
the `code` from the redirect URL; the provider's echoed state parameter
(`_echoedState`) is never read, and `exchange_code_for_token` is called with
the generated state. -/
def auth_callback_flow (tokenEndpoint : String → TokenData)
    (generatedState : String) (_echoedState : String) (auth_code : String) : ExchangeResult :=
  exchange_code_for_token tokenEndpoint auth_code (some generatedState)

/-- A token row that never expires (`expires_at` NULL). -/
def tokNoExp : TokenRecord := ⟨"tok0", "ref0", "Bearer", none, "daily"⟩

/-- A token row expiring at 2024-01-01T00:00:00Z (epoch 1704067200), stored
timezone-aware in UTC as `save_token` writes it. -/
def tokExp2024 : TokenRecord := ⟨"tokA", "refA", "Bearer", some (.aware 1704067200 0), "daily"⟩

/-- A well-formed provider token response. -/
def tdFresh : TokenData := ⟨some "tok1", some "ref1", some "Bearer", some 86400, some "daily"⟩

/-- A refresh endpoint that always succeeds with `tdFresh`. -/
def rfS : String → Except Unit TokenData := fun _ => .ok tdFresh

/-- A refresh endpoint that always fails (provider rejected the grant). -/
def rfFail : String → Except Unit TokenData := fun _ => .error ()

/-- A server returning `N` consecutive 429 responses (no `Retry-After`
header) and then 200 responses with body `bOk`. -/
def server429 (N : Nat) (b429 bOk : β) : Nat → HttpResponse β :=
  fun i => if i < N then ⟨429, none, b429⟩ else ⟨200, none, bOk⟩

example : is_expired 0 5 (some (.aware 3 0)) = true := by decide
example : is_expired 0 2 (some (.aware 3 0)) = false := by decide
example : is_expired 7200 (-3600) (some (.naive 0)) = true := by decide
example : is_expired_specUTC (-3600) (some (.naive 0)) = false := by decide
example : pythonIntOfString " 60 " = some 60 := by decide
example : pythonIntOfString "soon" = none := by decide
example : pythonIntOfString "-5" = some (-5) := by decide
example : pythonIntOfString "1_0" = some 10 := by decide
example : pythonIntOfString "1_" = none := by decide

/-- Loop lemma for an all-429 stretch: while every remaining attempt gets a
429, each iteration sleeps 60 seconds, sends the same bearer, and consumes
one attempt; when the attempts run out the final `Exception` is raised. -/
theorem request_loop_429_exhaust (β : Type) (localOffset utcNow : Int)
    (rf : String → Except Unit TokenData) (N : Nat) (b429 bOk : β)
    (bearer : String) (mr : Nat) :
    ∀ rem att st, att + rem ≤ N →
      request_loop localOffset utcNow rf (server429 N b429 bOk) bearer mr rem att st =
        (.error .exhaustedError,
          ⟨st.db, st.waits ++ List.replicate rem 60,
           st.bearers ++ List.replicate rem bearer,
           st.refreshCalls, st.saveCalls⟩) := by
  intro rem
  induction rem with
  | zero => intro att st h; simp [request_loop]
  | succ n ih =>
    intro att st h
    have hlt : att < N := by omega
    have hserver : server429 N b429 bOk att = ⟨429, none, b429⟩ := by
      simp [server429, hlt]
    have hstep : request_loop localOffset utcNow rf (server429 N b429 bOk) bearer mr
        (n + 1) att st =
        request_loop localOffset utcNow rf (server429 N b429 bOk) bearer mr n (att + 1)
          ⟨st.db, st.waits ++ [60], st.bearers ++ [bearer],
           st.refreshCalls, st.saveCalls⟩ := by
      simp [request_loop, hserver, retryAfterValue]
    rw [hstep, ih (att + 1) _ (by omega)]
    simp [List.replicate_succ, List.append_assoc]

/-- Loop lemma for a 429 stretch that ends within the remaining attempts:
the loop sleeps once per 429, then the 200 response is returned. -/
theorem request_loop_429_success (β : Type) (localOffset utcNow : Int)
    (rf : String → Except Unit TokenData) (N : Nat) (b429 bOk : β)
    (bearer : String) (mr : Nat) :
    ∀ rem att st, att ≤ N → N < att + rem →
      request_loop localOffset utcNow rf (server429 N b429 bOk) bearer mr rem att st =
        (.ok bOk,
          ⟨st.db, st.waits ++ List.replicate (N - att) 60,
           st.bearers ++ List.replicate (N - att + 1) bearer,
           st.refreshCalls, st.saveCalls⟩) := by
  intro rem
  induction rem with
  | zero => intro att st h1 h2; omega
  | succ n ih =>
    intro att st h1 h2
    rcases Nat.lt_or_ge att N with hlt | hge
    · have hserver : server429 N b429 bOk att = ⟨429, none, b429⟩ := by
        simp [server429, hlt]
      have hstep : request_loop localOffset utcNow rf (server429 N b429 bOk) bearer mr
          (n + 1) att st =
          request_loop localOffset utcNow rf (server429 N b429 bOk) bearer mr n (att + 1)
            ⟨st.db, st.waits ++ [60], st.bearers ++ [bearer],
             st.refreshCalls, st.saveCalls⟩ := by
        simp [request_loop, hserver, retryAfterValue]
      rw [hstep, ih (att + 1) _ (by omega) (by omega)]
      have e1 : N - att = (N - (att + 1)) + 1 := by omega
      rw [e1]
      simp [List.replicate_succ, List.append_assoc]
    · have hatt : att = N := by omega
      have hserver : server429 N b429 bOk att = ⟨200, none, bOk⟩ := by
        simp [server429, hatt]
      subst hatt
      simp [request_loop, hserver, Nat.sub_self]

/-- Helper: when the stored token is present, not expired, and has a
non-empty access token, `make_request` computes the bearer header once and
enters the retry loop with an otherwise empty trace. -/
theorem make_request_no_refresh (β : Type) (localOffset utcNow : Int)
    (rf : String → Except Unit TokenData) (server : Nat → HttpResponse β)
    (t : TokenRecord) (mr : Nat)
    (hexp : is_expired localOffset utcNow t.expires_at = false)
    (hat : ¬ t.access_token = "") :
    make_request localOffset utcNow rf server (some t) mr =
      request_loop localOffset utcNow rf server ("Bearer " ++ t.access_token) mr mr 0
        ⟨some t, [], [], 0, 0⟩ := by
  simp [make_request, get_token, hexp, hat]

/-- Claim C1 counterexample: with `max_retries = 3`, a sequence of N = 3
consecutive 429 responses followed by a 200 does NOT yield a successful
result: each 429 `continue` advances the `for attempt in range(max_retries)`
loop, so after three 60-second waits the loop is exhausted and the final
`Exception` is raised, even though the next response would have been 200. -/
theorem C1_counterexample :
    (make_request 0 0 rfS (server429 3 (0 : Nat) 7) (some tokNoExp) 3).1 =
      .error .exhaustedError ∧
    (make_request 0 0 rfS (server429 3 (0 : Nat) 7) (some tokNoExp) 3).2.waits =
      [60, 60, 60] := by
  constructor <;> rfl

/-- Claim C1 (amended): a 429 response DOES consume a retry slot.  A
sequence of N consecutive 429s followed by a 200 yields exactly one
successful result after N waits precisely when N < max_retries; when
N ≥ max_retries the request fails with the exhaustion `Exception` after
max_retries waits. -/
theorem C1_amended (β : Type) (b429 bOk : β) (t : TokenRecord)
    (rf : String → Except Unit TokenData) (localOffset utcNow : Int)
    (N max_retries : Nat)
    (hexp : is_expired localOffset utcNow t.expires_at = false)
    (hat : ¬ t.access_token = "") :
    (N < max_retries →
      (make_request localOffset utcNow rf (server429 N b429 bOk) (some t) max_retries).1 =
        .ok bOk ∧
      (make_request localOffset utcNow rf (server429 N b429 bOk) (some t) max_retries).2.waits =
        List.replicate N 60) ∧
    (max_retries ≤ N →
      (make_request localOffset utcNow rf (server429 N b429 bOk) (some t) max_retries).1 =
        .error .exhaustedError ∧
      (make_request localOffset utcNow rf (server429 N b429 bOk) (some t) max_retries).2.waits =
        List.replicate max_retries 60) := by
  rw [make_request_no_refresh β localOffset utcNow rf (server429 N b429 bOk) t max_retries
    hexp hat]
  constructor
  · intro hN
    rw [request_loop_429_success β localOffset utcNow rf N b429 bOk
      ("Bearer " ++ t.access_token) max_retries max_retries 0 ⟨some t, [], [], 0, 0⟩
      (by omega) (by omega)]
    simp
  · intro hN
    rw [request_loop_429_exhaust β localOffset utcNow rf N b429 bOk
      ("Bearer " ++ t.access_token) max_retries max_retries 0 ⟨some t, [], [], 0, 0⟩
      (by omega)]
    simp

/-- Claim C1 witness: one 429 then a 200, with `max_retries = 3`, succeeds
after one 60-second wait. -/
theorem C1_witness :
    (make_request 0 0 rfS (server429 1 (0 : Nat) 7) (some tokNoExp) 3).1 = .ok 7 ∧
    (make_request 0 0 rfS (server429 1 (0 : Nat) 7) (some tokNoExp) 3).2.waits =
      List.replicate 1 60 :=
  (C1_amended Nat 0 7 tokNoExp rfS 0 0 1 3 rfl (by decide)).1 (by decide)

/-- A scripted token endpoint that answers every code with `tdFresh`. -/
def tokenEndpointS : String → TokenData := fun _ => tdFresh

/-- Claim C2: the authorization flow generates state "A" while the provider
echoes state "B"; `exchange_code_for_token` nevertheless calls the token
endpoint and returns the token, because the `authorization_response` URL it
validates is built from its own `state` argument (the generated state), so
the provider's echoed state is never compared and no `AuthorizationError`
can arise from a mismatch. -/
theorem C2_state_never_checked :
    ("A" ≠ "B") ∧
    auth_callback_flow tokenEndpointS "A" "B" "c" =
      ⟨true, .token tdFresh⟩ := by
  exact ⟨by decide, rfl⟩

/-- Claim C3: `is_expired` does NOT normalize a naive stored `expires_at` as
UTC.  With the stored naive clock 0 (meant as the UTC instant 0), the local
timezone at UTC+2 (offset 7200 s), and the current UTC time one hour BEFORE
the expiry instant, the code compares the naive local clock 3600 ≥ 0 and
says "expired", while the equivalent timezone-aware UTC timestamp
(`aware 0 0`) and the spec's normalize-as-UTC check both say "not
expired". -/
theorem C3_naive_not_utc :
    is_expired 7200 (-3600) (some (.naive 0)) = true ∧
    is_expired 7200 (-3600) (some (.aware 0 0)) = false ∧
    is_expired_specUTC (-3600) (some (.naive 0)) = false := by
  decide

/-- Claim C4: for a stored row with timezone-aware UTC `expires_at` = c (the
form `save_token` always writes), `get_token` triggers a refresh exactly
when the current time is greater than or equal to c: `>=` in
`is_expired`. -/
theorem C4_refresh_iff_expired (localOffset utcNow c : Int)
    (rf : String → Except Unit TokenData) (t : TokenRecord)
    (h : t.expires_at = some (.aware c 0)) :
    (get_token localOffset utcNow rf (some t)).refreshCalls = 1 ↔ utcNow ≥ c := by
  by_cases hc : utcNow ≥ c
  · have hexp : is_expired localOffset utcNow t.expires_at = true := by
      rw [h]; simp [is_expired]; omega
    simp only [get_token, hexp, if_true]
    cases hrf : rf t.refresh_token with
    | error e => simp [hrf]; omega
    | ok td =>
      cases hsv : save_token utcNow td (some t) with
      | error e => simp [hrf, hsv]; omega
      | ok db2 => simp [hrf, hsv]; omega
  · have hexp : is_expired localOffset utcNow t.expires_at = false := by
      rw [h]; simp [is_expired]; omega
    simp [get_token, hexp]
    omega

/-- Claim C4 witness: expiry at 2024-01-01T00:00:00Z (epoch 1704067200); a
call one second later refreshes, a call one second before does not. -/
theorem C4_witness :
    ((get_token 0 1704067201 rfS (some tokExp2024)).refreshCalls = 1 ↔
      (1704067201 : Int) ≥ 1704067200) ∧
    ((get_token 0 1704067199 rfS (some tokExp2024)).refreshCalls = 1 ↔
      (1704067199 : Int) ≥ 1704067200) :=
  ⟨C4_refresh_iff_expired 0 1704067201 1704067200 rfS tokExp2024 rfl,
   C4_refresh_iff_expired 0 1704067199 1704067200 rfS tokExp2024 rfl⟩

/-- Claim C7: when the stored row is expired and the refresh call fails,
`get_token` returns `None` (the `except` swallows the exception instead of
letting it reach the caller), performs no save, and leaves the stored row
exactly as it was. -/
theorem C7_failed_refresh (localOffset utcNow : Int)
    (rf : String → Except Unit TokenData) (t : TokenRecord)
    (hexp : is_expired localOffset utcNow t.expires_at = true)
    (hrf : rf t.refresh_token = .error ()) :
    get_token localOffset utcNow rf (some t) = ⟨none, some t, 1, 0⟩ := by
  simp [get_token, hexp, hrf]

/-- Claim C7 witness: the 2024 token one second after expiry with a failing
refresh endpoint. -/
theorem C7_witness :
    get_token 0 1704067201 rfFail (some tokExp2024) = ⟨none, some tokExp2024, 1, 0⟩ :=
  C7_failed_refresh 0 1704067201 rfFail tokExp2024 (by decide) rfl

/-- Claim C8: saving a token response without a `refresh_token` key keeps
the stored refresh token and updates the other fields when a row exists
(`token_data.get("refresh_token", existing_token.refresh_token)`), and
raises `KeyError` (row creation rolled back, no record written) when no row
exists (`token_data["refresh_token"]`). -/
theorem C8_save_without_refresh_token (utcNow : Int) (td : TokenData)
    (hrt : td.refresh_token = none) :
    (∀ r a, td.access_token = some a →
      save_token utcNow td (some r) =
        .ok (some { access_token := a
                    refresh_token := r.refresh_token
                    token_type := td.token_type.getD "Bearer"
                    expires_at := some (.aware (utcNow + td.expires_in.getD 86400) 0)
                    scopes := td.scope.getD "" })) ∧
    save_token utcNow td none = .error .keyError := by
  constructor
  · intro r a ha
    simp [save_token, ha, hrt]
  · cases hta : td.access_token <;> simp [save_token, hta, hrt]

/-- A provider response carrying a new access token but no refresh token. -/
def tdNoRefresh : TokenData := ⟨some "acc1", none, none, none, none⟩

/-- Claim C8 witness: updating `tokNoExp` keeps its refresh token "ref0";
saving with no existing row raises `KeyError`. -/
theorem C8_witness :
    save_token 0 tdNoRefresh (some tokNoExp) =
      .ok (some ⟨"acc1", "ref0", "Bearer", some (.aware 86400 0), ""⟩) ∧
    save_token 0 tdNoRefresh none = .error .keyError := by
  have h := C8_save_without_refresh_token 0 tdNoRefresh rfl
  exact ⟨h.1 tokNoExp "acc1" rfl, h.2⟩

/-- A server returning HTTP 401 on the first request and 200 with body
`bOk` on every later request. -/
def server401 (bErr bOk : β) : Nat → HttpResponse β :=
  fun i => if i = 0 then ⟨401, none, bErr⟩ else ⟨200, none, bOk⟩

/-- Claim C5: a request answered 401 then 200, with a stored (unexpired)
row present, returns the 200 payload, performs exactly one
`refresh_access_token` + `save_token` cycle before the retry, and leaves
the saved row in the store; with no stored row, `_get_headers` raises
the fatal no-token `Exception` before any request is sent. -/
theorem C5_401_then_200 (β : Type) (bErr bOk : β) (localOffset utcNow : Int)
    (rf : String → Except Unit TokenData) (t : TokenRecord) (td : TokenData)
    (a : String) (max_retries : Nat)
    (hexp : is_expired localOffset utcNow t.expires_at = false)
    (hat : ¬ t.access_token = "")
    (hrf : rf t.refresh_token = .ok td)
    (hta : td.access_token = some a)
    (hmr : 2 ≤ max_retries) :
    (make_request localOffset utcNow rf (server401 bErr bOk) (some t) max_retries).1 =
      .ok bOk ∧
    (make_request localOffset utcNow rf (server401 bErr bOk) (some t) max_retries).2.refreshCalls = 1 ∧
    (make_request localOffset utcNow rf (server401 bErr bOk) (some t) max_retries).2.saveCalls = 1 ∧
    (make_request localOffset utcNow rf (server401 bErr bOk) (some t) max_retries).2.db =
      some ⟨a, td.refresh_token.getD t.refresh_token, td.token_type.getD "Bearer",
            some (.aware (utcNow + td.expires_in.getD 86400) 0), td.scope.getD ""⟩ ∧
    (make_request localOffset utcNow rf (server401 bErr bOk) none max_retries).1 =
      .error .noTokenError := by
  obtain ⟨k, rfl⟩ : ∃ k, max_retries = k + 1 + 1 := ⟨max_retries - 2, by omega⟩
  rw [make_request_no_refresh β localOffset utcNow rf (server401 bErr bOk) t (k + 1 + 1)
    hexp hat]
  have hsv : save_token utcNow td (some t) =
      .ok (some ⟨a, td.refresh_token.getD t.refresh_token, td.token_type.getD "Bearer",
                 some (.aware (utcNow + td.expires_in.getD 86400) 0), td.scope.getD ""⟩) := by
    simp [save_token, hta]
  have hstep1 : request_loop localOffset utcNow rf (server401 bErr bOk)
      ("Bearer " ++ t.access_token) (k + 1 + 1) (k + 1 + 1) 0 ⟨some t, [], [], 0, 0⟩ =
      request_loop localOffset utcNow rf (server401 bErr bOk)
        ("Bearer " ++ t.access_token) (k + 1 + 1) (k + 1) 1
        ⟨some ⟨a, td.refresh_token.getD t.refresh_token, td.token_type.getD "Bearer",
               some (.aware (utcNow + td.expires_in.getD 86400) 0), td.scope.getD ""⟩,
         [], ["Bearer " ++ t.access_token], 1, 1⟩ := by
    simp [request_loop, server401, get_token, hexp, hrf, hsv]
  have hstep2 : request_loop localOffset utcNow rf (server401 bErr bOk)
      ("Bearer " ++ t.access_token) (k + 1 + 1) (k + 1) 1
      ⟨some ⟨a, td.refresh_token.getD t.refresh_token, td.token_type.getD "Bearer",
             some (.aware (utcNow + td.expires_in.getD 86400) 0), td.scope.getD ""⟩,
       [], ["Bearer " ++ t.access_token], 1, 1⟩ =
      (.ok bOk,
        ⟨some ⟨a, td.refresh_token.getD t.refresh_token, td.token_type.getD "Bearer",
               some (.aware (utcNow + td.expires_in.getD 86400) 0), td.scope.getD ""⟩,
         [], ["Bearer " ++ t.access_token, "Bearer " ++ t.access_token], 1, 1⟩) := by
    simp [request_loop, server401]
  rw [hstep1, hstep2]
  simp [make_request, get_token]

/-- The concatenation, in response order, of the `data` arrays of pages
`i, i+1, ..., i+k` (the expected value of the pagination loop). -/
def pagesConcat (pages : Nat → PageBody α) : Nat → Nat → List α
  | 0, i => (pages i).data.getD []
  | k + 1, i => (pages i).data.getD [] ++ pagesConcat pages k (i + 1)

/-- Helper: if page `i + k` is the first final page at or after `i`, the
pagination loop from `i` concatenates the `data` arrays of the `k + 1`
pages it visits and issues exactly `k + 1` requests. -/
theorem fetch_loop_spec (α : Type) (pages : Nat → PageBody α) :
    ∀ k fuel i, k < fuel →
      pageDone (pages (i + k)) = true →
      (∀ j, j < k → pageDone (pages (i + j)) = false) →
      fetch_loop pages fuel i = some (pagesConcat pages k i, k + 1) := by
  intro k
  induction k with
  | zero =>
    intro fuel i hf hterm hbef
    obtain ⟨f, rfl⟩ : ∃ f, fuel = f + 1 := ⟨fuel - 1, by omega⟩
    simp only [Nat.add_zero] at hterm
    simp [fetch_loop, hterm, pagesConcat]
  | succ n ih =>
    intro fuel i hf hterm hbef
    obtain ⟨f, rfl⟩ : ∃ f, fuel = f + 1 := ⟨fuel - 1, by omega⟩
    have h0 : pageDone (pages i) = false := by
      have := hbef 0 (by omega)
      simpa using this
    have hrec := ih f (i + 1) (by omega)
      (by have e : i + 1 + n = i + (n + 1) := by omega
          rw [e]; exact hterm)
      (by intro j hj
          have e : i + 1 + j = i + (j + 1) := by omega
          rw [e]; exact hbef (j + 1) (by omega))
    simp [fetch_loop, h0, hrec, pagesConcat]

/-- Claim C6: `_fetch_paginated_data` returns the concatenation of the
`data` arrays in response order, issues exactly one request per page, and
stops exactly at the first response whose `next_token` is absent or
empty. -/
theorem C6_pagination (α : Type) (pages : Nat → PageBody α) (k fuel : Nat)
    (hfuel : k < fuel)
    (hterm : pageDone (pages k) = true)
    (hbef : ∀ j, j < k → pageDone (pages j) = false) :
    fetch_paginated_data pages fuel = some (pagesConcat pages k 0, k + 1) := by
  have h := fetch_loop_spec α pages k fuel 0 hfuel (by simpa using hterm)
    (by intro j hj; simpa using hbef j hj)
  simpa [fetch_paginated_data] using h

/-- A two-page script: page 0 carries items 1, 2 and a continuation token;
page 1 carries item 3 and no token. -/
def pagesS : Nat → PageBody Nat := fun i =>
  if i = 0 then ⟨some [1, 2], some "t"⟩ else ⟨some [3], none⟩

/-- Claim C6 witness: the two-page script yields [1, 2, 3] in two
requests. -/
theorem C6_witness : fetch_paginated_data pagesS 3 = some ([1, 2, 3], 2) := by
  have h := C6_pagination Nat pagesS 1 3 (by omega) (by decide)
    (by intro j hj
        have e : j = 0 := by omega
        subst e; decide)
  rw [h]
  decide

/-- Helper: the retry loop sends the same fixed bearer header on every GET
it issues; any bearer recorded in the trace equals the one the loop was
entered with. -/
theorem request_loop_bearers_const (β : Type) (localOffset utcNow : Int)
    (rf : String → Except Unit TokenData) (server : Nat → HttpResponse β)
    (bearer : String) (mr : Nat) :
    ∀ rem att st,
      st.bearers.all (fun x => x == bearer) = true →
      ((request_loop localOffset utcNow rf server bearer mr rem att st).2.bearers.all
        (fun x => x == bearer)) = true := by
  intro rem
  induction rem with
  | zero =>
    intro att st h
    simpa [request_loop] using h
  | succ n ih =>
    intro att st h
    have h1 : ((st.bearers ++ [bearer]).all (fun x => x == bearer)) = true := by
      simp [List.all_append, h]
    simp only [request_loop]
    repeat' split
    all_goals first
      | exact h1
      | exact ih _ _ h1

/-- Claim C9: within one `_make_request` call the Authorization header is
computed once, before the retry loop, and every GET of that call carries
that same bearer — including the attempt retried after a 401-triggered
refresh-and-save, which still uses the token fetched at call start. -/
theorem C9_bearer_constant (β : Type) (localOffset utcNow : Int)
    (rf : String → Except Unit TokenData) (server : Nat → HttpResponse β)
    (db : Option TokenRecord) (max_retries : Nat) (t : TokenRecord)
    (hg : (get_token localOffset utcNow rf db).token = some t) :
    ((make_request localOffset utcNow rf server db max_retries).2.bearers.all
      (fun x => x == "Bearer " ++ t.access_token)) = true := by
  simp only [make_request, hg]
  split
  · simp
  · exact request_loop_bearers_const β localOffset utcNow rf server
      ("Bearer " ++ t.access_token) max_retries max_retries 0 _ rfl

/-- Claim C9 witness: the 401-then-200 script with a refresh that replaces
the stored access token by "tok1"; both GETs still carry the initial
bearer for "tok0". -/
theorem C9_witness :
    ((make_request 0 0 rfS (server401 (0 : Nat) 7) (some tokNoExp) 3).2.bearers.all
      (fun x => x == "Bearer " ++ tokNoExp.access_token)) = true :=
  C9_bearer_constant Nat 0 0 rfS (server401 (0 : Nat) 7) (some tokNoExp) 3 tokNoExp rfl

/-- A server that always answers 429 with a non-numeric `Retry-After`
header. -/
def server429Bad : Nat → HttpResponse Nat := fun _ => ⟨429, some "soon", 0⟩

/-- Claim C10: a 429 response whose `Retry-After` header is "soon" (present
but not a decimal integer string) makes `int(...)` raise `ValueError`,
which the `except requests.exceptions.HTTPError` clause does not catch:
the call raises after a single GET, with no wait and no retry. -/
theorem C10_value_error :
    pythonIntOfString "soon" = none ∧
    (make_request 0 0 rfS server429Bad (some tokNoExp) 3).1 = .error .valueError ∧
    (make_request 0 0 rfS server429Bad (some tokNoExp) 3).2.waits = [] ∧
    (make_request 0 0 rfS server429Bad (some tokNoExp) 3).2.bearers.length = 1 :=
  ⟨rfl, rfl, rfl, rfl⟩

/-- Claim C5 witness: the 401-then-200 script against the stored unexpired
row `tokNoExp`, refresh endpoint `rfS`, default `max_retries = 3`: the call
returns the 200 payload after exactly one refresh-and-save cycle. -/
theorem C5_witness :
    (make_request 0 0 rfS (server401 (0 : Nat) 7) (some tokNoExp) 3).1 = .ok 7 ∧
    (make_request 0 0 rfS (server401 (0 : Nat) 7) (some tokNoExp) 3).2.refreshCalls = 1 ∧
    (make_request 0 0 rfS (server401 (0 : Nat) 7) (some tokNoExp) 3).2.saveCalls = 1 := by
  have h := C5_401_then_200 Nat 0 7 0 0 rfS tokNoExp tdFresh "tok1" 3 rfl (by decide)
    rfl rfl (by omega)
  exact ⟨h.1, h.2.1, h.2.2.1⟩
